import Mathlib

/-!
Verification of the render-graph assembly layer of this repository.

The repository's Python scripts (`src/scripts/ColorReSTIR.py`,
`src/scripts/ColorReSTIR/ColorReSTIR.py`, `src/scripts/ColorReSTIR/ColorReSTIRNRD.py`,
`src/scripts/ColorReSTIR/ColorReSTIRSVGF.py`) are declarative wiring scripts
calling a `RenderGraph` builder (`create_pass` / `add_edge` / `mark_output`)
that lives in the host Falcor engine and is not part of the provided sources.
The builder itself is therefore modelled from the specification
("render-graph assembly and port-resolution layer"); the four scripts are
translated call-for-call from the Python sources.
-/

/-- A configuration value: the scripts pass flat dictionaries whose values are
booleans, integers, floating-point numbers or enum strings.  Floating-point
literals are kept as their source text (no claim inspects their numeric
value, and IEEE semantics are out of scope for this layer, which only
carries configurations through to the host). -/
inductive ConfigValue where
  | b : Bool → ConfigValue
  | i : Int → ConfigValue
  | f : String → ConfigValue
  | s : String → ConfigValue
deriving DecidableEq

/-- A configuration dictionary, as the ordered key-value mapping written in the
scripts. -/
abbrev Config := List (String × ConfigValue)

/-- A port reference `(instanceName, portName)`, the parsed form of the
`"instanceName.portName"` strings used by the scripts. -/
structure PortRef where
  instanceName : String
  portName : String
deriving DecidableEq

/-- An edge: ordered pair of a source output port and a destination input
port. -/
structure Edge where
  src : PortRef
  dst : PortRef
deriving DecidableEq

/-- A registered pass instance: unique name, pass-type tag, configuration. -/
structure PassInstance where
  name : String
  passType : String
  config : Config
deriving DecidableEq

/-- Modelled from the spec: the error taxonomy of section 7.
`UnknownPassTypeError` belongs to the external Pass Registry, which is out of
scope here and never fails on the pass types the scripts use; it is listed
for completeness but is not raised by the modelled builder. -/
inductive BuilderError where
  | DuplicateNameError (name : String)
  | UnknownPassTypeError (passType : String)
  | UnknownPortReferenceError (name : String)
  | PortAlreadyBoundError (ref : PortRef)
  | CycleDetectedError (names : List String)
  | BuilderClosedError
deriving DecidableEq

/-- Modelled from the spec: the Graph Builder's accumulated state — pass
instances, edges, the ordered designated-outputs list, and the open/closed
flag of the builder state machine. -/
structure Builder where
  graphName : String
  passes : List PassInstance
  edges : List Edge
  outputs : List PortRef
  closed : Bool
deriving DecidableEq

/-- Modelled from the spec: a fresh, open builder with no passes, edges or
outputs — what `RenderGraph(name)` produces in the scripts. -/
def RenderGraph (name : String) : Builder :=
  { graphName := name, passes := [], edges := [], outputs := [], closed := false }

/-- The instance names registered in a builder, in creation order. -/
def Builder.passNames (bld : Builder) : List String :=
  bld.passes.map PassInstance.name

/-- Whether an instance of the given name exists in the builder. -/
def Builder.hasPass (bld : Builder) (n : String) : Bool :=
  bld.passNames.contains n

/-- Splits a character list at the first dot, if any. -/
def splitAtFirstDot : List Char → Option (List Char × List Char)
  | [] => none
  | c :: cs =>
    if c = '.' then some ([], cs)
    else
      match splitAtFirstDot cs with
      | some (a, rest) => some (c :: a, rest)
      | none => none

/-- Modelled from the spec: port references are written
`"instanceName.portName"`; we split at the first dot (port names may contain
spaces, e.g. `"SVGFPass.Filtered image"`, but never dots in the sources).  A
ref without a dot is read as an instance name with an empty port name, so it
fails the instance-existence checks below. -/
def parsePortRef (ref : String) : PortRef :=
  match splitAtFirstDot ref.toList with
  | some (a, rest) => { instanceName := String.mk a, portName := String.mk rest }
  | none => { instanceName := ref, portName := "" }

/-- Modelled from the spec: `createPass(instanceName, passType, config)` —
fails with `BuilderClosedError` on a closed builder, with
`DuplicateNameError` if `instanceName` already exists, and otherwise
registers the instance under `instanceName`.  (The external Pass Registry's
`UnknownPassTypeError` is delegated to the host and not modelled.) -/
def Builder.createPass (bld : Builder) (instanceName passType : String)
    (config : Config) : Except BuilderError Builder :=
  if bld.closed then .error .BuilderClosedError
  else if bld.hasPass instanceName then .error (.DuplicateNameError instanceName)
  else .ok { bld with
    passes := bld.passes ++ [{ name := instanceName, passType := passType, config := config }] }

/-- Whether the given destination port already has an incoming edge. -/
def Builder.destBound (bld : Builder) (dst : PortRef) : Bool :=
  bld.edges.any (fun e => e.dst == dst)

/-- Modelled from the spec: `addEdge(sourceRef, destRef)` — fails with
`BuilderClosedError` on a closed builder, with `UnknownPortReferenceError`
if either instance name is absent, with `PortAlreadyBoundError` if the
destination input port already has an incoming edge, and otherwise appends
an Edge. -/
def Builder.addEdge (bld : Builder) (sourceRef destRef : String) :
    Except BuilderError Builder :=
  if bld.closed then .error .BuilderClosedError
  else if bld.hasPass (parsePortRef sourceRef).instanceName = false then
    .error (.UnknownPortReferenceError (parsePortRef sourceRef).instanceName)
  else if bld.hasPass (parsePortRef destRef).instanceName = false then
    .error (.UnknownPortReferenceError (parsePortRef destRef).instanceName)
  else if bld.destBound (parsePortRef destRef) then
    .error (.PortAlreadyBoundError (parsePortRef destRef))
  else .ok { bld with
    edges := bld.edges ++ [{ src := parsePortRef sourceRef, dst := parsePortRef destRef }] }

/-- Modelled from the spec: `markOutput(portRef)` — fails with
`BuilderClosedError` on a closed builder, with `UnknownPortReferenceError`
if the referenced instance is absent, and otherwise appends to the
designated-outputs list (order matters). -/
def Builder.markOutput (bld : Builder) (portRef : String) :
    Except BuilderError Builder :=
  if bld.closed then .error .BuilderClosedError
  else if bld.hasPass (parsePortRef portRef).instanceName = false then
    .error (.UnknownPortReferenceError (parsePortRef portRef).instanceName)
  else .ok { bld with outputs := bld.outputs ++ [parsePortRef portRef] }

/-- Modelled from the spec: the immutable Graph snapshot returned by
`build()`. -/
structure Graph where
  name : String
  passes : List PassInstance
  edges : List Edge
  outputs : List PortRef
deriving DecidableEq

/-- The instance names of a built graph, in creation order. -/
def Graph.passNames (g : Graph) : List String :=
  g.passes.map PassInstance.name

deriving instance DecidableEq for Except

/-- Whether some edge points into instance `n` from an instance still in
`remaining` — i.e. `n` is not yet free to be scheduled. -/
def hasIncomingFrom (edges : List Edge) (remaining : List String) (n : String) : Bool :=
  edges.any (fun e => e.dst.instanceName == n && remaining.contains e.src.instanceName)

/-- Modelled from the spec: the topological traversal of `build()` (Kahn
style).  Repeatedly removes the instances with no incoming dependency edge
from a still-remaining instance; if at some point none is removable while
instances remain, a cycle exists and the remaining (participating) instance
names are reported.  The fuel is an upper bound on the number of rounds;
`build` supplies the number of instances, which always suffices. -/
def topoSort (edges : List Edge) : Nat → List String → Except BuilderError Unit
  | 0, remaining =>
    if remaining.isEmpty then .ok () else .error (.CycleDetectedError remaining)
  | fuel + 1, remaining =>
    if remaining.isEmpty then .ok ()
    else
      let removable := remaining.filter (fun n => !(hasIncomingFrom edges remaining n))
      if removable.isEmpty then .error (.CycleDetectedError remaining)
      else topoSort edges fuel (remaining.filter (fun n => !(removable.contains n)))

/-- Modelled from the spec: `build()` — performs a topological traversal over
all PassInstances using edges as dependency arcs; fails with
`CycleDetectedError` if a cycle exists; otherwise returns the immutable
Graph snapshot together with the builder, now transitioned to the closed
state. -/
def Builder.build (bld : Builder) : Except BuilderError (Graph × Builder) :=
  match topoSort bld.edges bld.passNames.length bld.passNames with
  | .error e => .error e
  | .ok () => .ok
      ({ name := bld.graphName, passes := bld.passes, edges := bld.edges,
         outputs := bld.outputs },
       { bld with closed := true })

/-- Modelled from the spec: the Output Binder's `registerGraph` — a pure
pass-through to an externally supplied callback; when no callback is
registered (running outside the host) the call is a silent no-op.  This is
the explicit form of the scripts' `try: m.addGraph(g) except NameError`
pattern, where an absent host name `m` makes registration a no-op. -/
def registerGraph {α : Type} (callback : Option (Graph → α → α)) (g : Graph)
    (state : α) : α :=
  match callback with
  | some f => f g state
  | none => state

/-- Python binding name of `Builder.createPass`, as called by the scripts. -/
abbrev Builder.create_pass : Builder → String → String → Config →
    Except BuilderError Builder := Builder.createPass

/-- Python binding name of `Builder.addEdge`, as called by the scripts. -/
abbrev Builder.add_edge : Builder → String → String →
    Except BuilderError Builder := Builder.addEdge

/-- Python binding name of `Builder.markOutput`, as called by the scripts. -/
abbrev Builder.mark_output : Builder → String →
    Except BuilderError Builder := Builder.markOutput

namespace Scripts.Main

/-- Translated from `src/scripts/ColorReSTIR.py`, lines 4-19 (the script
returns the assembled builder; registration with the host happens at module
scope). -/
def render_graph_ColorReSTIR : Except BuilderError Builder := do
  let g := RenderGraph "ColorReSTIR"
  let g ← g.create_pass "GBufferRaster" "GBufferRaster" [("outputSize", .s "Default"), ("samplePattern", .s "Center"), ("sampleCount", .i 16), ("useAlphaTest", .b true), ("adjustShadingNormals", .b true), ("forceCullMode", .b false), ("cull", .s "Back")]
  let g ← g.create_pass "ToneMapper" "ToneMapper" [("outputSize", .s "Default"), ("useSceneMetadata", .b true), ("exposureCompensation", .f "0.0"), ("autoExposure", .b false), ("filmSpeed", .f "100.0"), ("whiteBalance", .b false), ("whitePoint", .f "6500.0"), ("operator", .s "Aces"), ("clamp", .b true), ("whiteMaxLuminance", .f "1.0"), ("whiteScale", .f "11.199999809265137"), ("fNumber", .f "1.0"), ("shutter", .f "1.0"), ("exposureMode", .s "AperturePriority")]
  let g ← g.create_pass "ColorReSTIR" "ColorReSTIR" [("maxBounces", .i 3), ("computeDirect", .b true), ("useImportanceSampling", .b true), ("gCandidateCount", .i 5), ("gCandidatesVisibility", .b false), ("gMaxConfidence", .i 20), ("gTemporalReuse", .b true), ("SPATIAL_REUSE", .i 1), ("gMaxSpatialSearch", .i 10), ("gSpatialRadius", .i 20)]
  let g ← g.create_pass "AccumulatePass" "AccumulatePass" [("enabled", .b false), ("outputSize", .s "Default"), ("autoReset", .b true), ("precisionMode", .s "Single"), ("maxFrameCount", .i 0), ("overflowMode", .s "Stop")]
  let g ← g.create_pass "GBufferRT" "GBufferRT" [("outputSize", .s "Default"), ("samplePattern", .s "Center"), ("sampleCount", .i 16), ("useAlphaTest", .b true), ("adjustShadingNormals", .b true), ("forceCullMode", .b false), ("cull", .s "Back"), ("texLOD", .s "Mip0"), ("useTraceRayInline", .b false), ("useDOF", .b true)]
  let g ← g.add_edge "GBufferRT.viewW" "ColorReSTIR.viewW"
  let g ← g.add_edge "ColorReSTIR.color" "AccumulatePass.input"
  let g ← g.add_edge "GBufferRT.guideNormalW" "ColorReSTIR.guideNormalW"
  let g ← g.add_edge "AccumulatePass.output" "ToneMapper.src"
  let g ← g.add_edge "GBufferRT.linearZ" "ColorReSTIR.linearZ"
  let g ← g.add_edge "GBufferRT.mvec" "ColorReSTIR.mvec"
  let g ← g.add_edge "GBufferRT.vbuffer" "ColorReSTIR.vbuffer"
  let g ← g.mark_output "ToneMapper.dst"
  pure g

end Scripts.Main

namespace Scripts.Folder

/-- Translated from `src/scripts/ColorReSTIR/ColorReSTIR.py`, lines 4-27. -/
def render_graph_ColorReSTIR : Except BuilderError Builder := do
  let g := RenderGraph "ColorReSTIR"
  let g ← g.create_pass "ToneMapper" "ToneMapper" [("outputSize", .s "Default"), ("useSceneMetadata", .b true), ("exposureCompensation", .f "0.0"), ("autoExposure", .b false), ("filmSpeed", .f "100.0"), ("whiteBalance", .b false), ("whitePoint", .f "6500.0"), ("operator", .s "Aces"), ("clamp", .b true), ("whiteMaxLuminance", .f "1.0"), ("whiteScale", .f "11.199999809265137"), ("fNumber", .f "1.0"), ("shutter", .f "1.0"), ("exposureMode", .s "AperturePriority")]
  let g ← g.create_pass "ColorReSTIR" "ColorReSTIR" [("gOutputMode", .s "Combined"), ("gDemodulateOutput", .b false), ("gTemporalColorEstimate", .s "Full"), ("gNormalizeColorEstimate", .b false), ("gReuseDemodulated", .b false), ("gAnalyticalSamples", .i 1), ("gEnvironmentSamples", .i 1), ("gEmissiveSamples", .i 1), ("gDeltaSamples", .i 1), ("gCandidatesVisibility", .b false), ("gMaxConfidence", .i 20), ("gTemporalReuse", .b true), ("SPATIAL_REUSE", .i 1), ("gMaxSpatialSearch", .i 10), ("gSpatialRadius", .i 20)]
  let g ← g.create_pass "AccumulatePass" "AccumulatePass" [("enabled", .b false), ("outputSize", .s "Default"), ("autoReset", .b true), ("precisionMode", .s "Single"), ("maxFrameCount", .i 0), ("overflowMode", .s "Stop")]
  let g ← g.create_pass "GBufferRT" "GBufferRT" [("outputSize", .s "Default"), ("samplePattern", .s "Center"), ("sampleCount", .i 16), ("useAlphaTest", .b true), ("adjustShadingNormals", .b true), ("forceCullMode", .b false), ("cull", .s "Back"), ("texLOD", .s "Mip0"), ("useTraceRayInline", .b false), ("useDOF", .b true)]
  let g ← g.create_pass "FileIO" "FileIO" []
  let g ← g.create_pass "ModulateIllumination" "ModulateIllumination" [("useEmission", .b true), ("useDiffuseReflectance", .b false), ("useDiffuseRadiance", .b true), ("useSpecularReflectance", .b false), ("useSpecularRadiance", .b false), ("useDeltaReflectionEmission", .b false), ("useDeltaReflectionReflectance", .b false), ("useDeltaReflectionRadiance", .b true), ("useDeltaTransmissionEmission", .b false), ("useDeltaTransmissionReflectance", .b false), ("useDeltaTransmissionRadiance", .b false), ("useResidualRadiance", .b false), ("outputSize", .s "Default")]
  let g ← g.add_edge "FileIO.src" "AccumulatePass.input"
  let g ← g.add_edge "GBufferRT.viewW" "ColorReSTIR.viewW"
  let g ← g.add_edge "GBufferRT.guideNormalW" "ColorReSTIR.guideNormalW"
  let g ← g.add_edge "AccumulatePass.output" "ToneMapper.src"
  let g ← g.add_edge "GBufferRT.linearZ" "ColorReSTIR.linearZ"
  let g ← g.add_edge "GBufferRT.mvec" "ColorReSTIR.mvec"
  let g ← g.add_edge "GBufferRT.vbuffer" "ColorReSTIR.vbuffer"
  let g ← g.add_edge "GBufferRT.posW" "ColorReSTIR.posW"
  let g ← g.add_edge "GBufferRT.emissive" "ModulateIllumination.emission"
  let g ← g.add_edge "ColorReSTIR.colorHit" "ModulateIllumination.diffuseRadiance"
  let g ← g.add_edge "ColorReSTIR.albedo" "ModulateIllumination.diffuseReflectance"
  let g ← g.add_edge "ColorReSTIR.albedo" "ModulateIllumination.deltaReflectionReflectance"
  let g ← g.add_edge "ColorReSTIR.delta" "ModulateIllumination.deltaReflectionRadiance"
  let g ← g.add_edge "ModulateIllumination.output" "FileIO.src"
  let g ← g.mark_output "ToneMapper.dst"
  pure g

/-- Translated from `src/scripts/ColorReSTIR/ColorReSTIRNRD.py`, lines 4-31. -/
def render_graph_ColorReSTIRNRD : Except BuilderError Builder := do
  let g := RenderGraph "ColorReSTIRNRD"
  let g ← g.create_pass "ColorReSTIR" "ColorReSTIR" [("gOutputMode", .s "Combined"), ("gDemodulateOutput", .b false), ("gTemporalColorEstimate", .s "Gradient"), ("gNormalizeColorEstimate", .b false), ("gReuseDemodulated", .b false), ("gAnalyticalSamples", .i 1), ("gEnvironmentSamples", .i 1), ("gEmissiveSamples", .i 1), ("gDeltaSamples", .i 1), ("gCandidatesVisibility", .b false), ("gMaxConfidence", .i 20), ("gTemporalReuse", .b true), ("SPATIAL_REUSE", .i 1), ("gMaxSpatialSearch", .i 10), ("gSpatialRadius", .i 20)]
  let g ← g.create_pass "GBufferRT" "GBufferRT" [("outputSize", .s "Default"), ("samplePattern", .s "Center"), ("sampleCount", .i 16), ("useAlphaTest", .b true), ("adjustShadingNormals", .b true), ("forceCullMode", .b false), ("cull", .s "Back"), ("texLOD", .s "Mip0"), ("useTraceRayInline", .b false), ("useDOF", .b true)]
  let g ← g.create_pass "NRD" "NRD" [("enabled", .b true), ("method", .s "RelaxDiffuseSpecular"), ("outputSize", .s "Default"), ("worldSpaceMotion", .b true), ("disocclusionThreshold", .f "2.0"), ("maxIntensity", .f "1000.0"), ("diffusePrepassBlurRadius", .f "16.0"), ("specularPrepassBlurRadius", .f "16.0"), ("diffuseMaxAccumulatedFrameNum", .i 31), ("specularMaxAccumulatedFrameNum", .i 31), ("diffuseMaxFastAccumulatedFrameNum", .i 2), ("specularMaxFastAccumulatedFrameNum", .i 2), ("diffusePhiLuminance", .f "2.0"), ("specularPhiLuminance", .f "1.0"), ("diffuseLobeAngleFraction", .f "0.800000011920929"), ("specularLobeAngleFraction", .f "0.8999999761581421"), ("roughnessFraction", .f "0.5"), ("diffuseHistoryRejectionNormalThreshold", .f "0.0"), ("specularVarianceBoost", .f "1.0"), ("specularLobeAngleSlack", .f "10.0"), ("disocclusionFixEdgeStoppingNormalPower", .f "8.0"), ("disocclusionFixMaxRadius", .f "32.0"), ("disocclusionFixNumFramesToFix", .i 4), ("historyClampingColorBoxSigmaScale", .f "2.0"), ("spatialVarianceEstimationHistoryThreshold", .i 4), ("atrousIterationNum", .i 6), ("minLuminanceWeight", .f "0.0"), ("depthThreshold", .f "0.019999999552965164"), ("luminanceEdgeStoppingRelaxation", .f "0.5"), ("normalEdgeStoppingRelaxation", .f "0.30000001192092896"), ("roughnessEdgeStoppingRelaxation", .f "0.30000001192092896"), ("enableAntiFirefly", .b false), ("enableReprojectionTestSkippingWithoutMotion", .b false), ("enableSpecularVirtualHistoryClamping", .b false), ("enableRoughnessEdgeStopping", .b true), ("enableMaterialTestForDiffuse", .b false), ("enableMaterialTestForSpecular", .b false)]
  let g ← g.create_pass "ToneMapper" "ToneMapper" [("outputSize", .s "Default"), ("useSceneMetadata", .b true), ("exposureCompensation", .f "0.0"), ("autoExposure", .b false), ("filmSpeed", .f "100.0"), ("whiteBalance", .b false), ("whitePoint", .f "6500.0"), ("operator", .s "Aces"), ("clamp", .b true), ("whiteMaxLuminance", .f "1.0"), ("whiteScale", .f "11.199999809265137"), ("fNumber", .f "1.0"), ("shutter", .f "1.0"), ("exposureMode", .s "AperturePriority")]
  let g ← g.create_pass "AccumulatePass" "AccumulatePass" [("enabled", .b false), ("outputSize", .s "Default"), ("autoReset", .b true), ("precisionMode", .s "Single"), ("maxFrameCount", .i 0), ("overflowMode", .s "Stop")]
  let g ← g.create_pass "ModulateIllumination" "ModulateIllumination" [("useEmission", .b true), ("useDiffuseReflectance", .b false), ("useDiffuseRadiance", .b true), ("useSpecularReflectance", .b false), ("useSpecularRadiance", .b false), ("useDeltaReflectionEmission", .b false), ("useDeltaReflectionReflectance", .b false), ("useDeltaReflectionRadiance", .b true), ("useDeltaTransmissionEmission", .b false), ("useDeltaTransmissionReflectance", .b false), ("useDeltaTransmissionRadiance", .b false), ("useResidualRadiance", .b false), ("outputSize", .s "Default")]
  let g ← g.add_edge "GBufferRT.linearZ" "ColorReSTIR.linearZ"
  let g ← g.add_edge "AccumulatePass.output" "ToneMapper.src"
  let g ← g.add_edge "ColorReSTIR.colorHit" "NRD.diffuseRadianceHitDist"
  let g ← g.add_edge "GBufferRT.normWRoughnessMaterialID" "NRD.normWRoughnessMaterialID"
  let g ← g.add_edge "GBufferRT.mvecW" "NRD.mvec"
  let g ← g.add_edge "GBufferRT.linearZ" "NRD.viewZ"
  let g ← g.add_edge "GBufferRT.guideNormalW" "ColorReSTIR.guideNormalW"
  let g ← g.add_edge "GBufferRT.posW" "ColorReSTIR.posW"
  let g ← g.add_edge "GBufferRT.viewW" "ColorReSTIR.viewW"
  let g ← g.add_edge "GBufferRT.mvec" "ColorReSTIR.mvec"
  let g ← g.add_edge "GBufferRT.vbuffer" "ColorReSTIR.vbuffer"
  let g ← g.add_edge "ColorReSTIR.colorHit" "NRD.specularRadianceHitDist"
  let g ← g.add_edge "ColorReSTIR.albedo" "ModulateIllumination.diffuseReflectance"
  let g ← g.add_edge "NRD.filteredDiffuseRadianceHitDist" "ModulateIllumination.diffuseRadiance"
  let g ← g.add_edge "ModulateIllumination.output" "AccumulatePass.input"
  let g ← g.add_edge "GBufferRT.emissive" "ModulateIllumination.emission"
  let g ← g.add_edge "ColorReSTIR.delta" "ModulateIllumination.deltaReflectionRadiance"
  let g ← g.add_edge "ColorReSTIR.albedo" "ModulateIllumination.deltaReflectionReflectance"
  let g ← g.mark_output "ToneMapper.dst"
  pure g

/-- Translated from `src/scripts/ColorReSTIR/ColorReSTIRSVGF.py`, lines 4-32. -/
def render_graph_ColorReSTIRSVGF : Except BuilderError Builder := do
  let g := RenderGraph "ColorReSTIRSVGF"
  let g ← g.create_pass "ToneMapper" "ToneMapper" [("outputSize", .s "Default"), ("useSceneMetadata", .b true), ("exposureCompensation", .f "0.0"), ("autoExposure", .b false), ("filmSpeed", .f "100.0"), ("whiteBalance", .b false), ("whitePoint", .f "6500.0"), ("operator", .s "Aces"), ("clamp", .b true), ("whiteMaxLuminance", .f "1.0"), ("whiteScale", .f "11.199999809265137"), ("fNumber", .f "1.0"), ("shutter", .f "1.0"), ("exposureMode", .s "AperturePriority")]
  let g ← g.create_pass "ColorReSTIR" "ColorReSTIR" [("gOutputMode", .s "Combined"), ("gTemporalColorEstimate", .s "Gradient"), ("gNormalizeColorEstimate", .b false), ("gReuseDemodulated", .b false), ("gAnalyticalSamples", .i 4), ("gEnvironmentSamples", .i 4), ("gEmissiveSamples", .i 4), ("gDeltaSamples", .i 1), ("gCandidatesVisibility", .b false), ("gMaxConfidence", .i 20), ("gTemporalReuse", .b true), ("SPATIAL_REUSE", .i 1), ("gMaxSpatialSearch", .i 10), ("gSpatialRadius", .i 20)]
  let g ← g.create_pass "AccumulatePass" "AccumulatePass" [("enabled", .b false), ("outputSize", .s "Default"), ("autoReset", .b true), ("precisionMode", .s "Single"), ("maxFrameCount", .i 0), ("overflowMode", .s "Stop")]
  let g ← g.create_pass "GBufferRT" "GBufferRT" [("outputSize", .s "Default"), ("samplePattern", .s "Center"), ("sampleCount", .i 16), ("useAlphaTest", .b true), ("adjustShadingNormals", .b true), ("forceCullMode", .b false), ("cull", .s "Back"), ("texLOD", .s "Mip0"), ("useTraceRayInline", .b false), ("useDOF", .b true)]
  let g ← g.create_pass "GBufferRaster0" "GBufferRaster" [("outputSize", .s "Default"), ("samplePattern", .s "Center"), ("sampleCount", .i 16), ("useAlphaTest", .b true), ("adjustShadingNormals", .b true), ("forceCullMode", .b false), ("cull", .s "Back")]
  let g ← g.create_pass "SVGFPass" "SVGFPass" [("Enabled", .b true), ("Iterations", .i 4), ("FeedbackTap", .i 1), ("VarianceEpsilon", .f "9.999999747378752e-05"), ("PhiColor", .f "10.0"), ("PhiNormal", .f "128.0"), ("Alpha", .f "0.05000000074505806"), ("MomentsAlpha", .f "0.20000000298023224")]
  let g ← g.create_pass "Composite" "Composite" [("mode", .s "Add"), ("scaleA", .f "1.0"), ("scaleB", .f "1.0"), ("outputFormat", .s "RGBA32Float")]
  let g ← g.add_edge "GBufferRT.viewW" "ColorReSTIR.viewW"
  let g ← g.add_edge "GBufferRT.guideNormalW" "ColorReSTIR.guideNormalW"
  let g ← g.add_edge "AccumulatePass.output" "ToneMapper.src"
  let g ← g.add_edge "GBufferRT.linearZ" "ColorReSTIR.linearZ"
  let g ← g.add_edge "GBufferRT.mvec" "ColorReSTIR.mvec"
  let g ← g.add_edge "GBufferRT.vbuffer" "ColorReSTIR.vbuffer"
  let g ← g.add_edge "GBufferRT.posW" "ColorReSTIR.posW"
  let g ← g.add_edge "GBufferRaster0.pnFwidth" "SVGFPass.PositionNormalFwidth"
  let g ← g.add_edge "ColorReSTIR.color" "SVGFPass.Color"
  let g ← g.add_edge "GBufferRaster0.linearZ" "SVGFPass.LinearZ"
  let g ← g.add_edge "ColorReSTIR.albedo" "SVGFPass.Albedo"
  let g ← g.add_edge "GBufferRT.emissive" "SVGFPass.Emission"
  let g ← g.add_edge "GBufferRT.posW" "SVGFPass.WorldPosition"
  let g ← g.add_edge "GBufferRT.guideNormalW" "SVGFPass.WorldNormal"
  let g ← g.add_edge "GBufferRT.mvec" "SVGFPass.MotionVec"
  let g ← g.add_edge "ColorReSTIR.delta" "Composite.B"
  let g ← g.add_edge "SVGFPass.Filtered image" "Composite.A"
  let g ← g.add_edge "Composite.out" "AccumulatePass.input"
  let g ← g.mark_output "ToneMapper.dst"
  pure g

end Scripts.Folder

/-- Projects the graph out of a script run: `some g` when the script's call
sequence succeeded and `build()` succeeded on the resulting builder. -/
def graphOf (r : Except BuilderError Builder) : Option Graph :=
  match r with
  | .error _ => none
  | .ok bld =>
    match bld.build with
    | .error _ => none
    | .ok (g, _) => some g

/-- The instance names of a successfully built script graph. -/
def builtNames (r : Except BuilderError Builder) : Option (List String) :=
  (graphOf r).map Graph.passNames

/-- A single builder call, for quantifying over call sequences. -/
inductive BuilderCall where
  | createPass (instanceName passType : String) (config : Config)
  | addEdge (sourceRef destRef : String)
  | markOutput (portRef : String)
deriving DecidableEq

/-- Executes one builder call. -/
def runCall (bld : Builder) : BuilderCall → Except BuilderError Builder
  | .createPass n t c => bld.createPass n t c
  | .addEdge sr dr => bld.addEdge sr dr
  | .markOutput r => bld.markOutput r

/-- Executes a call sequence, stopping at the first error.  A sequence is
"valid" exactly when this returns `.ok`. -/
def runCalls (bld : Builder) : List BuilderCall → Except BuilderError Builder
  | [] => .ok bld
  | c :: cs =>
    match runCall bld c with
    | .error e => .error e
    | .ok bld' => runCalls bld' cs

/-- The instance names passed to the `createPass` calls of a sequence, in call
order. -/
def createdNames (calls : List BuilderCall) : List String :=
  calls.filterMap fun c =>
    match c with
    | .createPass n _ _ => some n
    | _ => none

/-- The (parsed) port references passed to the `markOutput` calls of a
sequence, in call order. -/
def markedOutputs (calls : List BuilderCall) : List PortRef :=
  calls.filterMap fun c =>
    match c with
    | .markOutput r => some (parsePortRef r)
    | _ => none

theorem hasPass_false_not_mem {bld : Builder} {n : String}
    (h : bld.hasPass n = false) : n ∉ bld.passNames := by
  simp [Builder.hasPass, List.contains, List.elem_eq_mem] at h
  exact h

theorem createPass_ok {bld bld' : Builder} {n t : String} {c : Config}
    (h : bld.createPass n t c = .ok bld') :
    bld.closed = false ∧ bld.hasPass n = false ∧
      bld' = { bld with
        passes := bld.passes ++ [{ name := n, passType := t, config := c }] } := by
  unfold Builder.createPass at h
  split at h
  · exact absurd h (by simp)
  · split at h
    · exact absurd h (by simp)
    · rename_i hclosed hdup
      simp only [Except.ok.injEq] at h
      subst h
      exact ⟨by simpa using hclosed, by simpa using hdup, rfl⟩

theorem addEdge_ok {bld bld' : Builder} {sr dr : String}
    (h : bld.addEdge sr dr = .ok bld') :
    bld.closed = false ∧
      bld.hasPass (parsePortRef sr).instanceName = true ∧
      bld.hasPass (parsePortRef dr).instanceName = true ∧
      bld.destBound (parsePortRef dr) = false ∧
      bld' = { bld with
        edges := bld.edges ++ [{ src := parsePortRef sr, dst := parsePortRef dr }] } := by
  unfold Builder.addEdge at h
  split at h
  · exact absurd h (by simp)
  · split at h
    · exact absurd h (by simp)
    · split at h
      · exact absurd h (by simp)
      · split at h
        · exact absurd h (by simp)
        · rename_i hclosed hsrc hdst hbound
          simp only [Except.ok.injEq] at h
          subst h
          refine ⟨by simpa using hclosed, ?_, ?_, by simpa using hbound, rfl⟩
          · cases hs : bld.hasPass (parsePortRef sr).instanceName
            · exact absurd hs hsrc
            · rfl
          · cases hd : bld.hasPass (parsePortRef dr).instanceName
            · exact absurd hd hdst
            · rfl

theorem markOutput_ok {bld bld' : Builder} {r : String}
    (h : bld.markOutput r = .ok bld') :
    bld.closed = false ∧ bld.hasPass (parsePortRef r).instanceName = true ∧
      bld' = { bld with outputs := bld.outputs ++ [parsePortRef r] } := by
  unfold Builder.markOutput at h
  split at h
  · exact absurd h (by simp)
  · split at h
    · exact absurd h (by simp)
    · rename_i hclosed habsent
      simp only [Except.ok.injEq] at h
      subst h
      refine ⟨by simpa using hclosed, ?_, rfl⟩
      cases hr : bld.hasPass (parsePortRef r).instanceName
      · exact absurd hr habsent
      · rfl

theorem runCall_ok {bld bld' : Builder} {c : BuilderCall}
    (h : runCall bld c = .ok bld') :
    bld.closed = false ∧ bld'.closed = false ∧
      bld'.passNames = bld.passNames ++ createdNames [c] ∧
      bld'.outputs = bld.outputs ++ markedOutputs [c] := by
  cases c with
  | createPass n t cfg =>
    obtain ⟨h1, h2, h3⟩ := createPass_ok h
    subst h3
    simp_all [Builder.passNames, createdNames, markedOutputs]
  | addEdge sr dr =>
    obtain ⟨h1, _, _, _, h5⟩ := addEdge_ok h
    subst h5
    simp_all [Builder.passNames, createdNames, markedOutputs]
  | markOutput r =>
    obtain ⟨h1, _, h3⟩ := markOutput_ok h
    subst h3
    simp_all [Builder.passNames, createdNames, markedOutputs]

theorem runCalls_passNames :
    ∀ {calls : List BuilderCall} {bld bld' : Builder},
      runCalls bld calls = .ok bld' →
      bld'.passNames = bld.passNames ++ createdNames calls := by
  intro calls
  induction calls with
  | nil =>
    intro bld bld' h
    simp only [runCalls, Except.ok.injEq] at h
    subst h
    simp [createdNames]
  | cons c cs ih =>
    intro bld bld' h
    simp only [runCalls] at h
    cases hc : runCall bld c with
    | error e => rw [hc] at h; exact absurd h (by simp)
    | ok bld1 =>
      rw [hc] at h
      obtain ⟨-, -, hnames, -⟩ := runCall_ok hc
      rw [ih h, hnames]
      cases c <;> simp [createdNames, List.filterMap_cons]

theorem runCalls_outputs :
    ∀ {calls : List BuilderCall} {bld bld' : Builder},
      runCalls bld calls = .ok bld' →
      bld'.outputs = bld.outputs ++ markedOutputs calls := by
  intro calls
  induction calls with
  | nil =>
    intro bld bld' h
    simp only [runCalls, Except.ok.injEq] at h
    subst h
    simp [markedOutputs]
  | cons c cs ih =>
    intro bld bld' h
    simp only [runCalls] at h
    cases hc : runCall bld c with
    | error e => rw [hc] at h; exact absurd h (by simp)
    | ok bld1 =>
      rw [hc] at h
      obtain ⟨-, -, -, houts⟩ := runCall_ok hc
      rw [ih h, houts]
      cases c <;> simp [markedOutputs, List.filterMap_cons]

theorem runCalls_open :
    ∀ {calls : List BuilderCall} {bld bld' : Builder},
      runCalls bld calls = .ok bld' → bld'.closed = bld.closed := by
  intro calls
  induction calls with
  | nil =>
    intro bld bld' h
    simp only [runCalls, Except.ok.injEq] at h
    subst h
    rfl
  | cons c cs ih =>
    intro bld bld' h
    simp only [runCalls] at h
    cases hc : runCall bld c with
    | error e => rw [hc] at h; exact absurd h (by simp)
    | ok bld1 =>
      rw [hc] at h
      obtain ⟨h0, h1, -, -⟩ := runCall_ok hc
      rw [ih h, h1, h0]

theorem runCalls_nodup :
    ∀ {calls : List BuilderCall} {bld bld' : Builder},
      bld.passNames.Nodup → runCalls bld calls = .ok bld' →
      bld'.passNames.Nodup := by
  intro calls
  induction calls with
  | nil =>
    intro bld bld' hnd h
    simp only [runCalls, Except.ok.injEq] at h
    subst h
    exact hnd
  | cons c cs ih =>
    intro bld bld' hnd h
    simp only [runCalls] at h
    cases hc : runCall bld c with
    | error e => rw [hc] at h; exact absurd h (by simp)
    | ok bld1 =>
      rw [hc] at h
      refine ih ?_ h
      cases c with
      | createPass n t cfg =>
        obtain ⟨-, hfresh, hshape⟩ := createPass_ok hc
        subst hshape
        have hnm : n ∉ bld.passNames := hasPass_false_not_mem hfresh
        simp only [Builder.passNames, List.map_append, List.map_cons, List.map_nil]
        rw [List.nodup_append]
        exact ⟨hnd, List.nodup_singleton n, by
          intro a ha hb
          simp only [List.mem_singleton] at hb
          subst hb
          exact hnm ha⟩
      | addEdge sr dr =>
        obtain ⟨-, -, -, -, hshape⟩ := addEdge_ok hc
        subst hshape
        exact hnd
      | markOutput r =>
        obtain ⟨-, -, hshape⟩ := markOutput_ok hc
        subst hshape
        exact hnd

/-- The pass-dependency step relation induced by the edges: instance `a`
feeds instance `b` through some edge. -/
def edgeStep (edges : List Edge) (a b : String) : Prop :=
  ∃ e ∈ edges, e.src.instanceName = a ∧ e.dst.instanceName = b

/-- A directed cycle among pass dependencies: some instance reaches itself
through one or more edges. -/
def HasCycle (edges : List Edge) : Prop :=
  ∃ n, Relation.TransGen (edgeStep edges) n n

/-- Structural well-formedness of a builder state: every edge references only
member instances.  Every builder state reachable through the API satisfies
this, since `addEdge` checks both endpoints. -/
def Builder.wf (bld : Builder) : Prop :=
  ∀ e ∈ bld.edges,
    e.src.instanceName ∈ bld.passNames ∧ e.dst.instanceName ∈ bld.passNames

instance (bld : Builder) : Decidable bld.wf :=
  inferInstanceAs (Decidable (∀ e ∈ bld.edges,
    e.src.instanceName ∈ bld.passNames ∧ e.dst.instanceName ∈ bld.passNames))

theorem chain_transGen {α : Type} {r : α → α → Prop} :
    ∀ {l : List α} {x z : α}, List.Chain r x l → z ∈ l →
      Relation.TransGen r x z := by
  intro l
  induction l with
  | nil => intro x z _ hz; cases hz
  | cons y l ih =>
    intro x z hchain hz
    cases hchain with
    | cons hxy hrest =>
      rcases List.mem_cons.mp hz with h1 | h2
      · subst h1; exact Relation.TransGen.single hxy
      · exact Relation.TransGen.head hxy (ih hrest h2)

theorem chain_cycle_of_not_nodup {α : Type} {r : α → α → Prop} :
    ∀ {l : List α} {x : α}, List.Chain r x l → ¬ (x :: l).Nodup →
      ∃ m, Relation.TransGen r m m := by
  intro l
  induction l with
  | nil => intro x _ hnd; exact absurd (List.nodup_singleton x) hnd
  | cons y l ih =>
    intro x hchain hnd
    cases hchain with
    | cons hxy hrest =>
      rw [List.nodup_cons] at hnd
      push_neg at hnd
      by_cases hx : x ∈ y :: l
      · exact ⟨x, chain_transGen (List.Chain.cons hxy hrest) hx⟩
      · exact ih hrest (hnd hx)

theorem chain_pred {α : Type} {r : α → α → Prop} :
    ∀ {l : List α} {x : α}, List.Chain r x l →
      ∀ m ∈ l, ∃ q ∈ x :: l, r q m := by
  intro l
  induction l with
  | nil => intro x _ m hm; cases hm
  | cons y l ih =>
    intro x hchain m hm
    cases hchain with
    | cons hxy hrest =>
      rcases List.mem_cons.mp hm with h1 | h2
      · subst h1; exact ⟨x, List.mem_cons_self x _, hxy⟩
      · obtain ⟨q, hq, hr⟩ := ih hrest m h2
        exact ⟨q, List.mem_cons_of_mem x hq, hr⟩

theorem exists_walk {α : Type} {r : α → α → Prop} {S : List α}
    (hS : ∀ n ∈ S, ∃ p ∈ S, r p n) :
    ∀ (k : Nat) (n : α), n ∈ S →
      ∃ (x : α) (l : List α), List.Chain r x l ∧ (∀ m ∈ x :: l, m ∈ S) ∧
        (x :: l).getLast (List.cons_ne_nil x l) = n ∧
        (x :: l).length = k + 1 := by
  intro k
  induction k with
  | zero =>
    intro n hn
    exact ⟨n, [], List.Chain.nil, by simpa using hn, rfl, rfl⟩
  | succ k ih =>
    intro n hn
    obtain ⟨x, l, hchain, hmem, hlast, hlen⟩ := ih n hn
    obtain ⟨p, hp, hrp⟩ := hS x (hmem x (List.mem_cons_self x l))
    refine ⟨p, x :: l, List.Chain.cons hrp hchain, ?_, ?_, ?_⟩
    · intro m hm
      rcases List.mem_cons.mp hm with h1 | h2
      · subst h1; exact hp
      · exact hmem m h2
    · rw [List.getLast_cons_cons]; exact hlast
    · simp only [List.length_cons] at hlen ⊢; omega

theorem not_nodup_of_superset_length {α : Type} [DecidableEq α]
    {l S : List α} (hsub : ∀ m ∈ l, m ∈ S) (hlen : S.length + 1 ≤ l.length) :
    ¬ l.Nodup := by
  intro hnd
  have h1 : l.toFinset.card = l.length := List.toFinset_card_of_nodup hnd
  have h2 : l.toFinset ⊆ S.toFinset := by
    intro a ha
    simp only [List.mem_toFinset] at ha ⊢
    exact hsub a ha
  have h3 : l.toFinset.card ≤ S.toFinset.card := Finset.card_le_card h2
  have h4 : S.toFinset.card ≤ S.length := List.toFinset_card_le S
  omega

theorem hasCycle_of_closed_preds {edges : List Edge} {S : List String}
    (hne : S ≠ []) (hS : ∀ n ∈ S, ∃ p ∈ S, edgeStep edges p n) :
    HasCycle edges := by
  obtain ⟨n, hn⟩ := List.exists_mem_of_ne_nil S hne
  obtain ⟨x, l, hchain, hmem, -, hlen⟩ := exists_walk hS S.length n hn
  have hnd : ¬ (x :: l).Nodup := not_nodup_of_superset_length hmem (by omega)
  exact chain_cycle_of_not_nodup hchain hnd

theorem cycle_trap {edges : List Edge} {n : String}
    (hn : Relation.TransGen (edgeStep edges) n n) :
    ∃ S : List String, n ∈ S ∧ S ≠ [] ∧
      (∀ m ∈ S, ∃ p ∈ S, edgeStep edges p m) ∧
      (∀ m ∈ S, ∃ e ∈ edges, e.dst.instanceName = m) := by
  obtain ⟨p, hrt, hpn⟩ := Relation.TransGen.tail'_iff.mp hn
  obtain ⟨l, hchain, hlast⟩ := List.exists_chain_of_relationReflTransGen hrt
  have hclosed : ∀ m ∈ n :: l, ∃ q ∈ n :: l, edgeStep edges q m := by
    intro m hm
    rcases List.mem_cons.mp hm with h1 | h2
    · subst h1
      refine ⟨p, ?_, hpn⟩
      rw [← hlast]
      exact List.getLast_mem _
    · exact chain_pred hchain m h2
  refine ⟨n :: l, List.mem_cons_self n l, List.cons_ne_nil n l, hclosed, ?_⟩
  intro m hm
  obtain ⟨q, -, e, he, -, hdst⟩ := hclosed m hm
  exact ⟨e, he, hdst⟩

theorem hasIncomingFrom_iff {edges : List Edge} {remaining : List String}
    {n : String} :
    hasIncomingFrom edges remaining n = true ↔
      ∃ p ∈ remaining, edgeStep edges p n := by
  simp only [hasIncomingFrom, List.any_eq_true, Bool.and_eq_true, beq_iff_eq,
    List.contains, List.elem_eq_mem, decide_eq_true_eq, edgeStep]
  constructor
  · rintro ⟨e, he, hdst, hsrc⟩
    exact ⟨e.src.instanceName, hsrc, e, he, rfl, hdst⟩
  · rintro ⟨p, hp, e, he, hsrc, hdst⟩
    exact ⟨e, he, hdst, by rw [hsrc]; exact hp⟩

theorem length_filter_lt {α : Type} {p : α → Bool} :
    ∀ {l : List α} {x : α}, x ∈ l → p x = false →
      (l.filter p).length < l.length := by
  intro l
  induction l with
  | nil => intro x hx _; cases hx
  | cons a l ih =>
    intro x hx hpx
    rcases List.mem_cons.mp hx with h1 | h2
    · subst h1
      rw [List.filter_cons_of_neg (by simp [hpx])]
      have := List.length_filter_le p l
      simp only [List.length_cons]
      omega
    · cases hpa : p a
      · rw [List.filter_cons_of_neg (by simp [hpa])]
        have := List.length_filter_le p l
        simp only [List.length_cons]
        omega
      · rw [List.filter_cons_of_pos (by simp [hpa])]
        have := ih h2 hpx
        simp only [List.length_cons]
        omega

theorem topoSort_trapped {edges : List Edge} {S : List String} :
    ∀ (fuel : Nat) (remaining : List String),
      S ≠ [] → (∀ m ∈ S, m ∈ remaining) →
      (∀ m ∈ S, ∃ p ∈ S, edgeStep edges p m) →
      ∃ names, topoSort edges fuel remaining = .error (.CycleDetectedError names) ∧
        ∀ m ∈ S, m ∈ names := by
  intro fuel
  induction fuel with
  | zero =>
    intro remaining hne hsub hcl
    obtain ⟨m0, hm0⟩ := List.exists_mem_of_ne_nil S hne
    have hrem : remaining.isEmpty = false :=
      List.isEmpty_eq_false.mpr (List.ne_nil_of_mem (hsub m0 hm0))
    refine ⟨remaining, ?_, hsub⟩
    simp [topoSort, hrem]
  | succ fuel ih =>
    intro remaining hne hsub hcl
    obtain ⟨m0, hm0⟩ := List.exists_mem_of_ne_nil S hne
    have hrem : remaining.isEmpty = false :=
      List.isEmpty_eq_false.mpr (List.ne_nil_of_mem (hsub m0 hm0))
    have hnotrem : ∀ m ∈ S,
        (!(hasIncomingFrom edges remaining m)) = false := by
      intro m hm
      obtain ⟨p, hp, hstep⟩ := hcl m hm
      have : hasIncomingFrom edges remaining m = true :=
        hasIncomingFrom_iff.mpr ⟨p, hsub p hp, hstep⟩
      simp [this]
    by_cases hstuck :
        (remaining.filter (fun n => !(hasIncomingFrom edges remaining n))).isEmpty
    · refine ⟨remaining, ?_, hsub⟩
      simp only [topoSort, hrem, Bool.false_eq_true, if_false]
      rw [if_pos hstuck]
    · have hstep : ∀ m ∈ S,
          m ∈ remaining.filter
            (fun n => !((remaining.filter
              (fun n2 => !(hasIncomingFrom edges remaining n2))).contains n)) := by
        intro m hm
        rw [List.mem_filter]
        refine ⟨hsub m hm, ?_⟩
        have hnm : m ∉ remaining.filter
            (fun n2 => !(hasIncomingFrom edges remaining n2)) := by
          intro hmem
          rw [List.mem_filter] at hmem
          rw [hnotrem m hm] at hmem
          exact absurd hmem.2 (by simp)
        simp only [Bool.not_eq_true']
        rw [← Bool.not_eq_true]
        intro hcont
        rw [List.contains, List.elem_eq_mem, decide_eq_true_eq] at hcont
        exact hnm hcont
      obtain ⟨names, hres, hmem⟩ := ih _ hne hstep hcl
      refine ⟨names, ?_, hmem⟩
      simp only [topoSort, hrem, Bool.false_eq_true, if_false]
      rw [if_neg (by simpa using hstuck)]
      exact hres

theorem topoSort_ok {edges : List Edge} (hnc : ¬ HasCycle edges) :
    ∀ (fuel : Nat) (remaining : List String),
      remaining.length ≤ fuel → topoSort edges fuel remaining = .ok () := by
  intro fuel
  induction fuel with
  | zero =>
    intro remaining hlen
    have : remaining = [] := List.length_eq_zero.mp (Nat.le_zero.mp hlen)
    subst this
    simp [topoSort]
  | succ fuel ih =>
    intro remaining hlen
    by_cases hemp : remaining.isEmpty
    · simp [topoSort, hemp]
    · have hemp' : remaining ≠ [] := by simpa using hemp
      by_cases hstuck :
          (remaining.filter (fun n => !(hasIncomingFrom edges remaining n))).isEmpty
      · exfalso
        apply hnc
        apply hasCycle_of_closed_preds hemp'
        intro m hm
        have hall := List.filter_eq_nil_iff.mp (List.isEmpty_eq_true.mp hstuck)
        have := hall m hm
        have hin : hasIncomingFrom edges remaining m = true := by
          by_contra hf
          exact this (by simpa using hf)
        exact hasIncomingFrom_iff.mp hin
      · have hne : (remaining.filter
            (fun n => !(hasIncomingFrom edges remaining n))) ≠ [] := by
          simpa using hstuck
        obtain ⟨x, hx⟩ := List.exists_mem_of_ne_nil _ hne
        have hxrem : x ∈ remaining := (List.mem_filter.mp hx).1
        have hxcont : (remaining.filter
            (fun n2 => !(hasIncomingFrom edges remaining n2))).contains x = true := by
          rw [List.contains, List.elem_eq_mem]
          simp [hx]
        have hxdrop : (fun n => !((remaining.filter
            (fun n2 => !(hasIncomingFrom edges remaining n2))).contains n)) x = false := by
          simp only [hxcont, Bool.not_true]
        have hlt := length_filter_lt (p := fun n => !((remaining.filter
            (fun n2 => !(hasIncomingFrom edges remaining n2))).contains n)) hxrem hxdrop
        simp only [topoSort, List.isEmpty_eq_true]
        rw [if_neg (by simpa using hemp)]
        rw [if_neg (by simpa using hstuck)]
        exact ih _ (by omega)

theorem build_ok_of_acyclic {bld : Builder} (hnc : ¬ HasCycle bld.edges) :
    bld.build = .ok
      ({ name := bld.graphName, passes := bld.passes, edges := bld.edges,
         outputs := bld.outputs },
       { bld with closed := true }) := by
  unfold Builder.build
  rw [topoSort_ok hnc _ _ (le_refl _)]

theorem build_error_of_hasCycle {bld : Builder} (hwf : bld.wf)
    (hc : HasCycle bld.edges) :
    ∃ names, bld.build = .error (.CycleDetectedError names) ∧
      ∀ n, Relation.TransGen (edgeStep bld.edges) n n → n ∈ names := by
  obtain ⟨n0, hn0⟩ := hc
  obtain ⟨S, -, hSne, hScl, hSdst⟩ := cycle_trap hn0
  have hSsub : ∀ m ∈ S, m ∈ bld.passNames := by
    intro m hm
    obtain ⟨e, he, hdst⟩ := hSdst m hm
    rw [← hdst]
    exact (hwf e he).2
  obtain ⟨names, hres, -⟩ :=
    topoSort_trapped (S := S) bld.passNames.length bld.passNames hSne hSsub hScl
  refine ⟨names, ?_, ?_⟩
  · unfold Builder.build
    rw [hres]
  · intro n hn
    obtain ⟨S2, hnS2, hS2ne, hS2cl, hS2dst⟩ := cycle_trap hn
    have hS2sub : ∀ m ∈ S2, m ∈ bld.passNames := by
      intro m hm
      obtain ⟨e, he, hdst⟩ := hS2dst m hm
      rw [← hdst]
      exact (hwf e he).2
    obtain ⟨names2, hres2, hmem2⟩ :=
      topoSort_trapped (S := S2) bld.passNames.length bld.passNames hS2ne hS2sub hS2cl
    rw [hres] at hres2
    have h2 := Except.error.inj hres2
    have h3 := (BuilderError.CycleDetectedError.injEq names names2).mp h2
    rw [h3]
    exact hmem2 n hnS2

theorem hasPass_true_mem {bld : Builder} {n : String}
    (h : bld.hasPass n = true) : n ∈ bld.passNames := by
  simpa [Builder.hasPass, List.contains, List.elem_eq_mem] using h

theorem runCalls_wf :
    ∀ {calls : List BuilderCall} {bld bld' : Builder},
      bld.wf → runCalls bld calls = .ok bld' → bld'.wf := by
  intro calls
  induction calls with
  | nil =>
    intro bld bld' hwf h
    simp only [runCalls, Except.ok.injEq] at h
    subst h
    exact hwf
  | cons c cs ih =>
    intro bld bld' hwf h
    simp only [runCalls] at h
    cases hc : runCall bld c with
    | error e => rw [hc] at h; exact absurd h (by simp)
    | ok bld1 =>
      rw [hc] at h
      refine ih ?_ h
      cases c with
      | createPass n t cfg =>
        obtain ⟨-, -, hshape⟩ := createPass_ok hc
        subst hshape
        intro e he
        obtain ⟨h1, h2⟩ := hwf e he
        constructor <;>
          simp only [Builder.passNames, List.map_append] <;>
          exact List.mem_append_left _ (by assumption)
      | addEdge sr dr =>
        obtain ⟨-, hsrc, hdst, -, hshape⟩ := addEdge_ok hc
        subst hshape
        intro e he
        rcases List.mem_append.mp he with h1 | h2
        · exact hwf e h1
        · simp only [List.mem_singleton] at h2
          subst h2
          exact ⟨hasPass_true_mem hsrc, hasPass_true_mem hdst⟩
      | markOutput r =>
        obtain ⟨-, -, hshape⟩ := markOutput_ok hc
        subst hshape
        exact hwf

theorem build_ok_elim {bld bld' : Builder} {g : Graph}
    (h : bld.build = .ok (g, bld')) :
    g.name = bld.graphName ∧ g.passes = bld.passes ∧ g.edges = bld.edges ∧
      g.outputs = bld.outputs ∧ bld' = { bld with closed := true } := by
  unfold Builder.build at h
  cases htopo : topoSort bld.edges bld.passNames.length bld.passNames with
  | error e => rw [htopo] at h; exact absurd h (by simp)
  | ok u =>
    cases u
    rw [htopo] at h
    simp only [Except.ok.injEq, Prod.mk.injEq] at h
    obtain ⟨h1, h2⟩ := h
    subst h2
    rw [← h1]
    exact ⟨rfl, rfl, rfl, rfl, rfl⟩

/-- The spec's worked example sequence: two passes, one edge, one designated
output. -/
def exampleCalls : List BuilderCall :=
  [.createPass "gbuf" "GBufferRT" [], .createPass "tm" "ToneMapper" [],
   .addEdge "gbuf.color" "tm.src", .markOutput "tm.dst"]

/-- The builder state the example sequence produces. -/
def exampleBuilder : Builder :=
  { graphName := "example",
    passes := [{ name := "gbuf", passType := "GBufferRT", config := [] },
               { name := "tm", passType := "ToneMapper", config := [] }],
    edges := [{ src := { instanceName := "gbuf", portName := "color" },
                dst := { instanceName := "tm", portName := "src" } }],
    outputs := [{ instanceName := "tm", portName := "dst" }],
    closed := false }

/-- The graph `build()` returns on the example builder. -/
def exampleGraph : Graph :=
  { name := "example", passes := exampleBuilder.passes,
    edges := exampleBuilder.edges, outputs := exampleBuilder.outputs }

/-- The closed builder `build()` leaves behind on the example builder. -/
def exampleClosedBuilder : Builder :=
  { exampleBuilder with closed := true }

/-- C1: for every sequence of valid `createPass`/`addEdge`/`markOutput` calls
followed by `build()`, the instance names of the returned Graph equal
exactly the list of names passed to the `createPass` calls — no duplicates,
no omissions — and the graph built by `render_graph_ColorReSTIRSVGF`
contains exactly the seven instance names it creates. -/
theorem claim1_instance_names :
    (∀ (name : String) (calls : List BuilderCall) (bld bld' : Builder)
        (g : Graph),
        runCalls (RenderGraph name) calls = .ok bld →
        bld.build = .ok (g, bld') →
        g.passNames = createdNames calls ∧ g.passNames.Nodup) ∧
    builtNames Scripts.Folder.render_graph_ColorReSTIRSVGF =
      some ["ToneMapper", "ColorReSTIR", "AccumulatePass", "GBufferRT",
            "GBufferRaster0", "SVGFPass", "Composite"] := by
  constructor
  · intro name calls bld bld' g hrun hbuild
    obtain ⟨-, hpasses, -, -, -⟩ := build_ok_elim hbuild
    have hnames : g.passNames = bld.passNames := by
      simp [Graph.passNames, Builder.passNames, hpasses]
    have h1 : bld.passNames = createdNames calls := by
      have := runCalls_passNames hrun
      simpa [RenderGraph, Builder.passNames] using this
    have h2 : bld.passNames.Nodup :=
      runCalls_nodup (by simp [RenderGraph, Builder.passNames]) hrun
    rw [hnames, h1] at *
    exact ⟨rfl, h2⟩
  · decide

/-- Witness for C1 at the spec's worked example. -/
theorem claim1_witness :
    runCalls (RenderGraph "example") exampleCalls = .ok exampleBuilder ∧
    exampleBuilder.build = .ok (exampleGraph, exampleClosedBuilder) ∧
    exampleGraph.passNames = createdNames exampleCalls ∧
    exampleGraph.passNames.Nodup := by
  have h := claim1_instance_names.1 "example" exampleCalls exampleBuilder
    exampleClosedBuilder exampleGraph (by decide) (by decide)
  exact ⟨by decide, by decide, h.1, h.2⟩

/-- C2: for every reachable builder state whose pass-dependency edges contain
a directed cycle, `build()` fails with `CycleDetectedError` and the reported
names include every instance lying on a cycle; for every acyclic reachable
builder state, `build()` returns a Graph. -/
theorem claim2_cycle_detection :
    ∀ (name : String) (calls : List BuilderCall) (bld : Builder),
      runCalls (RenderGraph name) calls = .ok bld →
      (HasCycle bld.edges →
        ∃ names, bld.build = .error (.CycleDetectedError names) ∧
          ∀ n, Relation.TransGen (edgeStep bld.edges) n n → n ∈ names) ∧
      (¬ HasCycle bld.edges → ∃ g bld', bld.build = .ok (g, bld')) := by
  intro name calls bld hrun
  have hwf0 : (RenderGraph name).wf := by
    intro e he
    cases he
  have hwf : bld.wf := runCalls_wf hwf0 hrun
  exact ⟨build_error_of_hasCycle hwf,
    fun hnc => ⟨_, _, build_ok_of_acyclic hnc⟩⟩

/-- A call sequence wiring two passes into a two-node dependency cycle; the
builder accepts it (no check forbids cycles until `build()`). -/
def cyclicCalls : List BuilderCall :=
  [.createPass "a" "A" [], .createPass "b" "B" [],
   .addEdge "a.out" "b.i", .addEdge "b.out" "a.i"]

/-- The builder state the cyclic sequence produces. -/
def cyclicBuilder : Builder :=
  { graphName := "cyc",
    passes := [{ name := "a", passType := "A", config := [] },
               { name := "b", passType := "B", config := [] }],
    edges := [{ src := { instanceName := "a", portName := "out" },
                dst := { instanceName := "b", portName := "i" } },
              { src := { instanceName := "b", portName := "out" },
                dst := { instanceName := "a", portName := "i" } }],
    outputs := [],
    closed := false }

/-- Witness for C2: the two-node cycle is reported, the acyclic example
builds. -/
theorem claim2_witness :
    runCalls (RenderGraph "cyc") cyclicCalls = .ok cyclicBuilder ∧
    (∃ names, cyclicBuilder.build = .error (.CycleDetectedError names) ∧
      ∀ n, Relation.TransGen (edgeStep cyclicBuilder.edges) n n → n ∈ names) ∧
    runCalls (RenderGraph "example") exampleCalls = .ok exampleBuilder ∧
    (∃ g bld', exampleBuilder.build = .ok (g, bld')) := by
  have hstep1 : edgeStep cyclicBuilder.edges "a" "b" := by
    unfold edgeStep
    exact ⟨{ src := { instanceName := "a", portName := "out" },
             dst := { instanceName := "b", portName := "i" } },
           by decide, rfl, rfl⟩
  have hstep2 : edgeStep cyclicBuilder.edges "b" "a" := by
    unfold edgeStep
    exact ⟨{ src := { instanceName := "b", portName := "out" },
             dst := { instanceName := "a", portName := "i" } },
           by decide, rfl, rfl⟩
  have hcyc : HasCycle cyclicBuilder.edges :=
    ⟨"a", Relation.TransGen.head hstep1 (Relation.TransGen.single hstep2)⟩
  have hrun2 : runCalls (RenderGraph "example") exampleCalls =
      .ok exampleBuilder := by decide
  have h1 := (claim2_cycle_detection "cyc" cyclicCalls cyclicBuilder
    (by decide)).1 hcyc
  have hnc : ¬ HasCycle exampleBuilder.edges := by
    intro hc
    obtain ⟨names, herr, -⟩ :=
      (claim2_cycle_detection "example" exampleCalls exampleBuilder hrun2).1 hc
    have hok : (graphOf (.ok exampleBuilder)).isSome = true := by decide
    simp [graphOf, herr] at hok
  have h2 := (claim2_cycle_detection "example" exampleCalls exampleBuilder
    hrun2).2 hnc
  exact ⟨by decide, h1, hrun2, h2⟩

/-- A small open builder with two passes and no edges, used as a witness
fixture. -/
def twoPassBuilder : Builder :=
  { graphName := "w",
    passes := [{ name := "gbuf", passType := "GBufferRT", config := [] },
               { name := "tm", passType := "ToneMapper", config := [] }],
    edges := [], outputs := [], closed := false }

/-- `twoPassBuilder` after one edge into `tm.src` has been added. -/
def boundBuilder : Builder :=
  { twoPassBuilder with
    edges := [{ src := { instanceName := "gbuf", portName := "color" },
                dst := { instanceName := "tm", portName := "src" } }] }

/-- C3: a second `addEdge` into an already-bound destination port fails with
`PortAlreadyBoundError` and the first edge remains intact; an unbound
destination accepts the edge (so one source output may fan out to several
destinations); and the NRD script indeed routes `ColorReSTIR.colorHit` into
two different NRD inputs. -/
theorem claim3_port_already_bound :
    (∀ (bld bld1 : Builder) (s1 s2 d : String),
        bld.addEdge s1 d = .ok bld1 →
        bld1.hasPass (parsePortRef s2).instanceName = true →
        bld1.addEdge s2 d = .error (.PortAlreadyBoundError (parsePortRef d)) ∧
          { src := parsePortRef s1, dst := parsePortRef d } ∈ bld1.edges) ∧
    (∀ (bld : Builder) (sr dr : String),
        bld.closed = false →
        bld.hasPass (parsePortRef sr).instanceName = true →
        bld.hasPass (parsePortRef dr).instanceName = true →
        bld.destBound (parsePortRef dr) = false →
        bld.addEdge sr dr = .ok { bld with
          edges := bld.edges ++
            [{ src := parsePortRef sr, dst := parsePortRef dr }] }) ∧
    (∃ bld, Scripts.Folder.render_graph_ColorReSTIRNRD = .ok bld ∧
      { src := parsePortRef "ColorReSTIR.colorHit",
        dst := parsePortRef "NRD.diffuseRadianceHitDist" } ∈ bld.edges ∧
      { src := parsePortRef "ColorReSTIR.colorHit",
        dst := parsePortRef "NRD.specularRadianceHitDist" } ∈ bld.edges) := by
  refine ⟨?_, ?_, ?_⟩
  · intro bld bld1 s1 s2 d hok hs2
    obtain ⟨hclosed, -, hdst, -, hshape⟩ := addEdge_ok hok
    have hmem : { src := parsePortRef s1, dst := parsePortRef d } ∈ bld1.edges := by
      rw [hshape]
      exact List.mem_append_right _ (List.mem_singleton.mpr rfl)
    have hclosed1 : bld1.closed = false := by rw [hshape]; exact hclosed
    have hdst1 : bld1.hasPass (parsePortRef d).instanceName = true := by
      rw [hshape]; exact hdst
    have hbound : bld1.destBound (parsePortRef d) = true := by
      unfold Builder.destBound
      rw [List.any_eq_true]
      exact ⟨_, hmem, by simp⟩
    refine ⟨?_, hmem⟩
    unfold Builder.addEdge
    rw [if_neg (by simp [hclosed1]), if_neg (by simp [hs2]),
      if_neg (by simp [hdst1]), if_pos hbound]
  · intro bld sr dr hclosed hsr hdr hbound
    unfold Builder.addEdge
    rw [if_neg (by simp [hclosed]), if_neg (by simp [hsr]),
      if_neg (by simp [hdr]), if_neg (by simp [hbound])]
  · refine ⟨_, rfl, by decide, by decide⟩

/-- Witness for C3 on `twoPassBuilder`: two edges into `tm.src`, the second
fails, the first survives; a second edge out of `gbuf` into a different
destination succeeds. -/
theorem claim3_witness :
    twoPassBuilder.addEdge "gbuf.color" "tm.src" = .ok boundBuilder ∧
    boundBuilder.hasPass (parsePortRef "gbuf.depth").instanceName = true ∧
    boundBuilder.addEdge "gbuf.depth" "tm.src" =
      .error (.PortAlreadyBoundError (parsePortRef "tm.src")) ∧
    { src := parsePortRef "gbuf.color", dst := parsePortRef "tm.src" } ∈
      boundBuilder.edges ∧
    boundBuilder.addEdge "gbuf.depth" "tm.extra" = .ok { boundBuilder with
      edges := boundBuilder.edges ++
        [{ src := parsePortRef "gbuf.depth", dst := parsePortRef "tm.extra" }] } := by
  have h1 := (claim3_port_already_bound.1 twoPassBuilder boundBuilder
    "gbuf.color" "gbuf.depth" "tm.src" (by decide) (by decide))
  have h2 := claim3_port_already_bound.2.1 boundBuilder "gbuf.depth" "tm.extra"
    (by decide) (by decide) (by decide) (by decide)
  exact ⟨by decide, by decide, h1.1, h1.2, h2⟩

/-- C5: `addEdge` fails with `UnknownPortReferenceError` naming the absent
instance whenever the source (resp. destination) reference names an
instance absent from the graph, `markOutput` fails the same way, and in
particular `addEdge("missing.out","tm.src")` fails referencing `"missing"`.
No builder is produced in any of these cases, so the state is unchanged. -/
theorem claim5_unknown_port_reference :
    (∀ (bld : Builder) (sr dr : String),
        bld.closed = false →
        bld.hasPass (parsePortRef sr).instanceName = false →
        bld.addEdge sr dr =
          .error (.UnknownPortReferenceError (parsePortRef sr).instanceName)) ∧
    (∀ (bld : Builder) (sr dr : String),
        bld.closed = false →
        bld.hasPass (parsePortRef sr).instanceName = true →
        bld.hasPass (parsePortRef dr).instanceName = false →
        bld.addEdge sr dr =
          .error (.UnknownPortReferenceError (parsePortRef dr).instanceName)) ∧
    (∀ (bld : Builder) (r : String),
        bld.closed = false →
        bld.hasPass (parsePortRef r).instanceName = false →
        bld.markOutput r =
          .error (.UnknownPortReferenceError (parsePortRef r).instanceName)) ∧
    twoPassBuilder.addEdge "missing.out" "tm.src" =
      .error (.UnknownPortReferenceError "missing") := by
  refine ⟨?_, ?_, ?_, by decide⟩
  · intro bld sr dr hclosed hsr
    unfold Builder.addEdge
    rw [if_neg (by simp [hclosed]), if_pos hsr]
  · intro bld sr dr hclosed hsr hdr
    unfold Builder.addEdge
    rw [if_neg (by simp [hclosed]), if_neg (by simp [hsr]), if_pos hdr]
  · intro bld r hclosed hr
    unfold Builder.markOutput
    rw [if_neg (by simp [hclosed]), if_pos hr]

/-- Witness for C5 on `twoPassBuilder`. -/
theorem claim5_witness :
    twoPassBuilder.addEdge "missing.out" "tm.src" =
      .error (.UnknownPortReferenceError "missing") ∧
    twoPassBuilder.addEdge "gbuf.color" "nope.src" =
      .error (.UnknownPortReferenceError "nope") ∧
    twoPassBuilder.markOutput "nope.dst" =
      .error (.UnknownPortReferenceError "nope") :=
  ⟨claim5_unknown_port_reference.1 twoPassBuilder "missing.out" "tm.src"
     (by decide) (by decide),
   claim5_unknown_port_reference.2.1 twoPassBuilder "gbuf.color" "nope.src"
     (by decide) (by decide) (by decide),
   claim5_unknown_port_reference.2.2.1 twoPassBuilder "nope.dst"
     (by decide) (by decide)⟩

/-- C6: `createPass` fails with `DuplicateNameError` when the instance name
already exists and otherwise registers the instance; consequently the
instance names of every reachable builder state, and of every Graph built
from one, are pairwise distinct. -/
theorem claim6_duplicate_name :
    (∀ (bld : Builder) (n t : String) (c : Config),
        bld.closed = false → bld.hasPass n = true →
        bld.createPass n t c = .error (.DuplicateNameError n)) ∧
    (∀ (bld : Builder) (n t : String) (c : Config),
        bld.closed = false → bld.hasPass n = false →
        bld.createPass n t c = .ok { bld with
          passes := bld.passes ++
            [{ name := n, passType := t, config := c }] }) ∧
    (∀ (name : String) (calls : List BuilderCall) (bld : Builder),
        runCalls (RenderGraph name) calls = .ok bld →
        bld.passNames.Nodup ∧
        ∀ (g : Graph) (bld' : Builder), bld.build = .ok (g, bld') →
          g.passNames.Nodup) := by
  refine ⟨?_, ?_, ?_⟩
  · intro bld n t c hclosed hdup
    unfold Builder.createPass
    rw [if_neg (by simp [hclosed]), if_pos hdup]
  · intro bld n t c hclosed hfresh
    unfold Builder.createPass
    rw [if_neg (by simp [hclosed]), if_neg (by simp [hfresh])]
  · intro name calls bld hrun
    have hnd : bld.passNames.Nodup :=
      runCalls_nodup (by simp [RenderGraph, Builder.passNames]) hrun
    refine ⟨hnd, ?_⟩
    intro g bld' hbuild
    obtain ⟨-, hpasses, -, -, -⟩ := build_ok_elim hbuild
    simpa [Graph.passNames, Builder.passNames, hpasses] using hnd

/-- Witness for C6. -/
theorem claim6_witness :
    twoPassBuilder.createPass "tm" "ToneMapper" [] =
      .error (.DuplicateNameError "tm") ∧
    (RenderGraph "w").createPass "gbuf" "GBufferRT" [] =
      .ok { RenderGraph "w" with
        passes := (RenderGraph "w").passes ++
          [{ name := "gbuf", passType := "GBufferRT", config := [] }] } ∧
    exampleBuilder.passNames.Nodup :=
  ⟨claim6_duplicate_name.1 twoPassBuilder "tm" "ToneMapper" []
     (by decide) (by decide),
   claim6_duplicate_name.2.1 (RenderGraph "w") "gbuf" "GBufferRT" []
     (by decide) (by decide),
   (claim6_duplicate_name.2.2 "example" exampleCalls exampleBuilder
     (by decide)).1⟩

/-- `twoPassBuilder` after `build()` has closed it. -/
def closedBuilder : Builder :=
  { twoPassBuilder with closed := true }

/-- C7: a builder is open until `build()` is called — fresh builders are
open, successful mutations keep it open — and `build()` closes it; on a
closed builder every mutation call (`createPass`, `addEdge`, `markOutput`)
fails with `BuilderClosedError`, and since failing calls return no new
state, closed is terminal. -/
theorem claim7_builder_state_machine :
    (∀ (bld : Builder) (n t : String) (c : Config), bld.closed = true →
        bld.createPass n t c = .error .BuilderClosedError) ∧
    (∀ (bld : Builder) (sr dr : String), bld.closed = true →
        bld.addEdge sr dr = .error .BuilderClosedError) ∧
    (∀ (bld : Builder) (r : String), bld.closed = true →
        bld.markOutput r = .error .BuilderClosedError) ∧
    (∀ (name : String), (RenderGraph name).closed = false) ∧
    (∀ (bld bld' : Builder) (c : BuilderCall), runCall bld c = .ok bld' →
        bld.closed = false ∧ bld'.closed = false) ∧
    (∀ (bld bld' : Builder) (g : Graph), bld.build = .ok (g, bld') →
        bld'.closed = true) := by
  refine ⟨?_, ?_, ?_, ?_, ?_, ?_⟩
  · intro bld n t c hclosed
    unfold Builder.createPass
    rw [if_pos hclosed]
  · intro bld sr dr hclosed
    unfold Builder.addEdge
    rw [if_pos hclosed]
  · intro bld r hclosed
    unfold Builder.markOutput
    rw [if_pos hclosed]
  · intro name
    rfl
  · intro bld bld' c hok
    obtain ⟨h1, h2, -, -⟩ := runCall_ok hok
    exact ⟨h1, h2⟩
  · intro bld bld' g hbuild
    obtain ⟨-, -, -, -, hshape⟩ := build_ok_elim hbuild
    rw [hshape]

/-- Witness for C7. -/
theorem claim7_witness :
    closedBuilder.createPass "x" "X" [] = .error .BuilderClosedError ∧
    closedBuilder.addEdge "gbuf.color" "tm.src" = .error .BuilderClosedError ∧
    closedBuilder.markOutput "tm.dst" = .error .BuilderClosedError ∧
    (RenderGraph "w").closed = false ∧
    (twoPassBuilder.closed = false ∧ boundBuilder.closed = false) ∧
    exampleClosedBuilder.closed = true :=
  ⟨claim7_builder_state_machine.1 closedBuilder "x" "X" [] (by decide),
   claim7_builder_state_machine.2.1 closedBuilder "gbuf.color" "tm.src"
     (by decide),
   claim7_builder_state_machine.2.2.1 closedBuilder "tm.dst" (by decide),
   claim7_builder_state_machine.2.2.2.1 "w",
   claim7_builder_state_machine.2.2.2.2.1 twoPassBuilder boundBuilder
     (.addEdge "gbuf.color" "tm.src") (by decide),
   claim7_builder_state_machine.2.2.2.2.2 exampleBuilder exampleClosedBuilder
     exampleGraph (by decide)⟩

/-- C8: the designated-output list of a built Graph is exactly the sequence
of `markOutput` calls, in call order; rebuilding from the same call
sequence yields an identical designated-output sequence. -/
theorem claim8_output_order :
    (∀ (name : String) (calls : List BuilderCall) (bld bld' : Builder)
        (g : Graph),
        runCalls (RenderGraph name) calls = .ok bld →
        bld.build = .ok (g, bld') →
        g.outputs = markedOutputs calls) ∧
    (∀ (name : String) (calls : List BuilderCall)
        (bld1 bld1' bld2 bld2' : Builder) (g1 g2 : Graph),
        runCalls (RenderGraph name) calls = .ok bld1 →
        bld1.build = .ok (g1, bld1') →
        runCalls (RenderGraph name) calls = .ok bld2 →
        bld2.build = .ok (g2, bld2') →
        g1.outputs = g2.outputs) := by
  have key : ∀ (name : String) (calls : List BuilderCall) (bld bld' : Builder)
      (g : Graph),
      runCalls (RenderGraph name) calls = .ok bld →
      bld.build = .ok (g, bld') → g.outputs = markedOutputs calls := by
    intro name calls bld bld' g hrun hbuild
    obtain ⟨-, -, -, houts, -⟩ := build_ok_elim hbuild
    have hrunouts := runCalls_outputs hrun
    rw [houts, hrunouts]
    simp [RenderGraph]
  refine ⟨key, ?_⟩
  intro name calls b1 b1' b2 b2' g1 g2 h1 hb1 h2 hb2
  rw [key name calls b1 b1' g1 h1 hb1, key name calls b2 b2' g2 h2 hb2]

/-- Witness for C8 at the spec's worked example. -/
theorem claim8_witness :
    exampleGraph.outputs = markedOutputs exampleCalls :=
  claim8_output_order.1 "example" exampleCalls exampleBuilder
    exampleClosedBuilder exampleGraph (by decide) (by decide)

/-- C9: `registerGraph` is a pure pass-through to an externally supplied
callback, and with no callback registered (running outside the host, the
scripts' suppressed-`NameError` case) it is a silent no-op returning the
host state unchanged rather than an error. -/
theorem claim9_register_graph :
    (∀ (α : Type) (g : Graph) (s : α), registerGraph none g s = s) ∧
    (∀ (α : Type) (f : Graph → α → α) (g : Graph) (s : α),
        registerGraph (some f) g s = f g s) :=
  ⟨fun _ _ _ => rfl, fun _ _ _ _ => rfl⟩

/-- C10: the builder accepts pass instances no edge or designated output
references, and the built graph keeps them: the graph of
`src/scripts/ColorReSTIR.py` contains `GBufferRaster` although no
`add_edge` or `mark_output` mentions it; it has 5 instances while its edges
touch only 4 of them. -/
theorem claim10_unreferenced_pass :
    ∃ g, graphOf Scripts.Main.render_graph_ColorReSTIR = some g ∧
      "GBufferRaster" ∈ g.passNames ∧
      g.passes.length = 5 ∧
      (∀ e ∈ g.edges, e.src.instanceName ≠ "GBufferRaster" ∧
        e.dst.instanceName ≠ "GBufferRaster") ∧
      (∀ o ∈ g.outputs, o.instanceName ≠ "GBufferRaster") ∧
      ((g.edges.map (fun e => e.src.instanceName)) ++
        (g.edges.map (fun e => e.dst.instanceName))).dedup.length = 4 := by
  refine ⟨_, rfl, ?_, ?_, ?_, ?_, ?_⟩ <;> decide

/-- Bundles what C4 asserts of one script run: the call sequence completes
without touching any error branch (the run returns a builder), the final
state is structurally sound — every edge references created instances, no
instance name was created twice, no destination input port has two incoming
edges, the dependency graph is acyclic — and `build()` succeeds.  (That
every reference names a *preceding* `create_pass` is enforced per call, so
it is subsumed by the run's success.) -/
def ScriptSound (r : Except BuilderError Builder) : Prop :=
  ∃ (bld : Builder) (g : Graph) (bld' : Builder),
    r = .ok bld ∧ bld.wf ∧ bld.passNames.Nodup ∧
    (bld.edges.map Edge.dst).Nodup ∧ ¬ HasCycle bld.edges ∧
    bld.build = .ok (g, bld')

/-- Decidable part of `ScriptSound`; acyclicity is then derived from the
success of `build()`. -/
def scriptCheck (r : Except BuilderError Builder) : Bool :=
  match r with
  | .error _ => false
  | .ok bld =>
    decide bld.wf && decide bld.passNames.Nodup &&
      decide (bld.edges.map Edge.dst).Nodup &&
      (match bld.build with
       | .ok _ => true
       | .error _ => false)

theorem scriptSound_of_check {r : Except BuilderError Builder}
    (h : scriptCheck r = true) : ScriptSound r := by
  unfold scriptCheck at h
  cases r with
  | error e => exact absurd h (by simp)
  | ok bld =>
    simp only [Bool.and_eq_true, decide_eq_true_eq] at h
    obtain ⟨⟨⟨hwf, hnd⟩, hdst⟩, hbuild⟩ := h
    cases hb : bld.build with
    | error e =>
      rw [hb] at hbuild
      exact absurd hbuild (by simp)
    | ok p =>
      obtain ⟨g, bld'⟩ := p
      refine ⟨bld, g, bld', rfl, hwf, hnd, hdst, ?_, hb⟩
      intro hc
      obtain ⟨names, herr, -⟩ := build_error_of_hasCycle hwf hc
      rw [hb] at herr
      exact absurd herr (by simp)

/-- C4: each of the four graph-construction functions runs its whole call
sequence without reaching any builder error branch — all referenced
instances were created first, no name is created twice, no destination port
gets two incoming edges, and the dependency graph is acyclic — so the run
and the subsequent `build()` both succeed. -/
theorem claim4_scripts_sound :
    ScriptSound Scripts.Main.render_graph_ColorReSTIR ∧
    ScriptSound Scripts.Folder.render_graph_ColorReSTIR ∧
    ScriptSound Scripts.Folder.render_graph_ColorReSTIRNRD ∧
    ScriptSound Scripts.Folder.render_graph_ColorReSTIRSVGF :=
  ⟨scriptSound_of_check (by decide), scriptSound_of_check (by decide),
   scriptSound_of_check (by decide), scriptSound_of_check (by decide)⟩
